import Mathlib

/-!
Verification of the safelink URL risk scanner.

Shallow embedding of the repository's Python sources:
  app/url_utils.py, app/risk_engine.py, app/cache.py,
  app/fetcher.py, app/html_parser.py, app/main.py.

Python strings are modelled as Lean `String` (a wrapper around `List Char`),
Python ints that are counts/sizes as `ℕ`, timestamps as `ℤ` (seconds),
Python floats as `ℚ` (every arithmetic operation performed by the sources on
floats is exact at the values that occur: sums, integer-valued penalties and
small-denominator ratios, so `ℚ` is a faithful model), dicts with a fixed key
set as structures, and `None` as `Option.none`.

External collaborators (the `httpx` transport, the `bs4` DOM parser,
`tldextract`, `hashlib.sha256`, and the Python `bytes.decode` UTF-8 codec)
are modelled as explicit Lean functions or oracle parameters; each such
definition says so in its doc comment.
-/

/-- Whitespace test used to model Python `str.strip()` (restricted to the
ASCII whitespace characters, which are the only ones arising here). -/
def wsB (c : Char) : Bool :=
  (c == ' ') || (c == '\t') || (c == '\n') || (c == '\r') || (c == '\x0b') || (c == '\x0c')

/-- Strip leading whitespace from a character list (left part of `str.strip`). -/
def lstripL (l : List Char) : List Char := l.dropWhile wsB

/-- Strip trailing whitespace from a character list (right part of `str.strip`). -/
def rstripL (l : List Char) : List Char := ((l.reverse.dropWhile wsB)).reverse

/-- Model of Python `str.strip()` on character lists. -/
def stripL (l : List Char) : List Char := rstripL (lstripL l)

/-- Model of Python `str.strip()`. -/
def pyStrip (s : String) : String := ⟨stripL s.data⟩

/-- Boolean prefix test on character lists (model of Python `str.startswith`). -/
def listPrefixB : List Char → List Char → Bool
  | [], _ => true
  | _ :: _, [] => false
  | a :: as, b :: bs => (a == b) && listPrefixB as bs

/-- Model of Python `str.startswith`. -/
def pyStartsWith (s pre : String) : Bool := listPrefixB pre.data s.data

/-- Boolean suffix test on lists of characters (model of Python `str.endswith`). -/
def listSuffixB (suf l : List Char) : Bool := listPrefixB suf.reverse l.reverse

/-- Model of Python `str.endswith`. -/
def pyEndsWith (s suf : String) : Bool := listSuffixB suf.data s.data

/-- Boolean substring test on character lists: does `pat` occur contiguously in
`l`?  Models the Python `in` operator on strings (empty pattern matches). -/
def listInfixB (pat l : List Char) : Bool :=
  (List.range (l.length + 1)).any (fun i => listPrefixB pat (l.drop i))

/-- Model of the Python `in` operator on strings (`pat in s`). -/
def pySubstr (pat s : String) : Bool := listInfixB pat.data s.data

/-- ASCII lower-casing of one character (model of Python `str.lower` per char;
the sources only lower-case ASCII hostnames, keywords and attribute names). -/
def lcChar (c : Char) : Char := c.toLower

/-- Model of Python `str.lower()`. -/
def pyLower (s : String) : String := ⟨s.data.map lcChar⟩

-- ## Lemmas about the string primitives

theorem dropWhile_idem (p : Char → Bool) (l : List Char) :
    (l.dropWhile p).dropWhile p = l.dropWhile p := by
  induction l with
  | nil => rfl
  | cons a as ih =>
    by_cases h : p a
    · simp [List.dropWhile, h, ih]
    · simp [List.dropWhile, h]

theorem lstripL_idem (l : List Char) : lstripL (lstripL l) = lstripL l := by
  simp [lstripL, dropWhile_idem]

theorem rstripL_idem (l : List Char) : rstripL (rstripL l) = rstripL l := by
  simp [rstripL, dropWhile_idem]

/-- The head of a `dropWhile` result does not satisfy the predicate. -/
theorem dropWhile_head_false (p : Char → Bool) (l : List Char) (c : Char) (cs : List Char)
    (h : l.dropWhile p = c :: cs) : p c = false := by
  induction l with
  | nil => simp [List.dropWhile] at h
  | cons a as ih =>
    by_cases ha : p a
    · simp [List.dropWhile, ha] at h
      exact ih h
    · simp [List.dropWhile, ha] at h
      rcases h with ⟨h1, _⟩
      subst h1
      simpa using ha

/-- A list whose head fails the predicate is unchanged by `dropWhile`. -/
theorem dropWhile_cons_false (p : Char → Bool) (c : Char) (cs : List Char)
    (h : p c = false) : (c :: cs).dropWhile p = c :: cs := by
  simp [List.dropWhile, h]

theorem lstripL_rstripL_comm (l : List Char) :
    lstripL (rstripL (lstripL l)) = rstripL (lstripL l) := by
  rcases h : rstripL (lstripL l) with _ | ⟨c, cs⟩
  · rfl
  · have hpref : (rstripL (lstripL l)).reverse.reverse = rstripL (lstripL l) := by
      simp
    -- the head of `rstripL (lstripL l)` is the head of `lstripL l`
    have hsuffix : ∃ t, rstripL (lstripL l) ++ t = lstripL l := by
      have : (lstripL l).reverse.dropWhile wsB <:+ (lstripL l).reverse :=
        List.dropWhile_suffix wsB
      rcases this with ⟨t, ht⟩
      refine ⟨t.reverse, ?_⟩
      have := congrArg List.reverse ht
      simpa [rstripL] using this
    rcases hsuffix with ⟨t, ht⟩
    rw [h] at ht
    rcases hl : lstripL l with _ | ⟨d, ds⟩
    · rw [hl] at ht; simp at ht
    · rw [hl] at ht
      have hd : c = d := by
        have := ht
        simp at this
        exact this.1
    -- `d` fails the predicate because `lstripL` dropped all leading whitespace
      have hdf : wsB d = false := by
        have : (l.dropWhile wsB) = d :: ds := hl
        exact dropWhile_head_false wsB l d ds this
      subst hd
      show (c :: cs).dropWhile wsB = c :: cs
      exact dropWhile_cons_false wsB c cs hdf

theorem stripL_idem (l : List Char) : stripL (stripL l) = stripL l := by
  unfold stripL
  rw [lstripL_rstripL_comm, rstripL_idem]

theorem pyStrip_idem (s : String) : pyStrip (pyStrip s) = pyStrip s := by
  unfold pyStrip
  simp [stripL_idem]

-- ## Model of the standard-library `urllib.parse.urlparse` (external collaborator)

/-- Split a character list at its first colon: `some (before, after)`, or
`none` when no colon occurs.  Helper for the scheme rule of `urlparse`. -/
def splitColon : List Char → Option (List Char × List Char)
  | [] => none
  | c :: r =>
    if c == ':' then some ([], r)
    else
      match splitColon r with
      | none => none
      | some (pre, rest) => some (c :: pre, rest)

/-- Characters allowed in a URL scheme by `urllib.parse` (after the first,
which must be a letter). -/
def schemeCharB (c : Char) : Bool :=
  c.isAlpha || c.isDigit || (c == '+') || (c == '-') || (c == '.')

/-- The first character of a scheme candidate must be a letter (and the
candidate nonempty). -/
def schemeHeadOk : List Char → Bool
  | [] => false
  | c :: _ => c.isAlpha

/-- Characters that terminate the network-location part in `urlsplit`. -/
def netlocStop (c : Char) : Bool := (c == '/') || (c == '?') || (c == '#')

/-- The part of a netloc after its last `@` (drops any userinfo),
as in CPython's `_hostinfo`. -/
def afterLastAt (l : List Char) : List Char :=
  (l.reverse.takeWhile (fun c => !(c == '@'))).reverse

/-- Result of `urllib.parse.urlparse` restricted to the fields the sources
read: `scheme` and `hostname` (plus the raw netloc). -/
structure UrlParts where
  scheme : String
  netloc : String
  hostname : Option String
deriving DecidableEq

/-- Model of `urllib.parse.urlparse` (external standard-library collaborator),
restricted to the fields used by the sources.  The scheme is the lower-cased
text before the first `:` when that text starts with a letter and consists of
scheme characters; the netloc follows a `//` up to the first `/`, `?` or `#`;
the hostname is the netloc without userinfo and port, lower-cased, `none`
when empty.  IPv6 bracket notation is not modelled (never exercised here). -/
def pyUrlparse (s : String) : UrlParts :=
  let l := s.data
  let sr : List Char × List Char :=
    match splitColon l with
    | some (pre, r) =>
      if schemeHeadOk pre && pre.all schemeCharB then (pre.map lcChar, r) else ([], l)
    | none => ([], l)
  let rest := sr.2
  let netloc := if listPrefixB ['/', '/'] rest then (rest.drop 2).takeWhile (fun c => !(netlocStop c)) else []
  let hostport := (afterLastAt netloc).takeWhile (fun c => !(c == ':'))
  { scheme := ⟨sr.1⟩
    netloc := ⟨netloc⟩
    hostname := if hostport.isEmpty then none else some ⟨hostport.map lcChar⟩ }

-- ## Embedding of app/url_utils.py

/-- Model of `normalize_url` (url_utils.py lines 13-20): strip whitespace and
prepend `https://` when no `http://`/`https://` prefix is present. -/
def normalize_url (url : String) : String :=
  let url := pyStrip url
  if pyStartsWith url "http://" || pyStartsWith url "https://" then url
  else "https://" ++ url

/-- Character class `[A-Za-z0-9.-]` of the domain part of `URL_REGEX`. -/
def urlClassChar (c : Char) : Bool :=
  (('A' ≤ c && c ≤ 'Z') || ('a' ≤ c && c ≤ 'z') || ('0' ≤ c && c ≤ '9')) || (c == '.') || (c == '-')

/-- ASCII letter test, class `[A-Za-z]` of the TLD part of `URL_REGEX`. -/
def asciiAlphaB (c : Char) : Bool :=
  ('A' ≤ c && c ≤ 'Z') || ('a' ≤ c && c ≤ 'z')

/-- ASCII digit test, class `\d` of the port part of `URL_REGEX`. -/
def asciiDigitB (c : Char) : Bool := '0' ≤ c && c ≤ '9'

/-- Matches the optional-path tail `(\/.*)?$` of `URL_REGEX`: either nothing,
or a `/` followed by characters `.` can match (no newline; the `$`-before-a-
final-newline subtlety of Python regex is unreachable because inputs are
stripped before matching). -/
def pathOk : List Char → Bool
  | [] => true
  | '/' :: r => r.all (fun c => !(c == '\n'))
  | _ => false

/-- Matches the tail `(:\d+)?(\/.*)?$` of `URL_REGEX` (the part after the
domain and TLD groups). -/
def tailOk (l : List Char) : Bool :=
  match l with
  | ':' :: r => !(r.takeWhile asciiDigitB).isEmpty && pathOk (r.drop (r.takeWhile asciiDigitB).length)
  | _ => pathOk l

/-- Matches the host part `([A-Za-z0-9.-]+)(\.[A-Za-z]{2,})` of `URL_REGEX`
against exactly `h`: some split at a dot with a nonempty class-char prefix and
a trailing all-letter run of length at least 2. -/
def hostOkB (h : List Char) : Bool :=
  (List.range h.length).any (fun j =>
    (h.getD j ' ' == '.') && !(h.take j).isEmpty && (h.take j).all urlClassChar &&
      (h.drop (j + 1)).all asciiAlphaB && decide (2 ≤ (h.drop (j + 1)).length))

/-- Matches the scheme-less remainder of `URL_REGEX`: a split of `l` into a
host part and a port/path tail.  The existential split search is the standard
unfolding of the backtracking regex engine. -/
def urlRegexMatchB (l : List Char) : Bool :=
  (List.range (l.length + 1)).any (fun i => hostOkB (l.take i) && tailOk (l.drop i))

/-- Model of `is_valid_url` (url_utils.py lines 22-25): anchored match of
`URL_REGEX` with its optional `(https?://)` group. -/
def is_valid_url (url : String) : Bool :=
  let l := url.data
  (listPrefixB "http://".data l && urlRegexMatchB (l.drop 7))
    || (listPrefixB "https://".data l && urlRegexMatchB (l.drop 8))
    || urlRegexMatchB l

/-- Split a character list on `.` separators (model of Python
`str.split('.')`; the result is always nonempty). -/
def splitOnDot : List Char → List (List Char)
  | [] => [[]]
  | c :: r =>
    match splitOnDot r with
    | [] => if c == '.' then [[], []] else [[c]]
    | g :: gs => if c == '.' then [] :: g :: gs else (c :: g) :: gs

/-- Modelled from the external `tldextract` collaborator used by
`extract_domain` (url_utils.py lines 28-30): returns
`f"{parsed.domain}.{parsed.suffix}"`, rendered here as the last two dot-labels
of the hostname.  The exact label split is irrelevant to every claim; only
determinism in the URL string is used. -/
def extract_domain_model (url : String) : String :=
  let host := ((pyUrlparse url).hostname).getD ""
  let parts := splitOnDot host.data
  if 2 ≤ parts.length then
    ⟨parts.getD (parts.length - 2) []⟩ ++ "." ++ ⟨parts.getLastD []⟩
  else host ++ "."

/-- Model of `validate_and_normalize` (url_utils.py lines 33-56), parameterized
by the domain-suffix collaborator `ed` standing for `extract_domain`. -/
def validate_and_normalize (ed : String → String) (url : String) : Bool × String :=
  let u := normalize_url url
  if is_valid_url u = false then (false, "Invalid URL format")
  else if (pyUrlparse u).scheme ≠ "http" ∧ (pyUrlparse u).scheme ≠ "https" then
    (false, "URL uses unsafe scheme")
  else if ed u = "" then (false, "Could not extract domain")
  else (true, u)

-- ## Lemmas about normalization and the URL validator

theorem listPrefixB_append_self (p t : List Char) : listPrefixB p (p ++ t) = true := by
  induction p with
  | nil => rfl
  | cons a as ih => simp [listPrefixB, ih]

theorem listPrefixB_iff (p : List Char) : ∀ l, listPrefixB p l = true ↔ ∃ t, l = p ++ t := by
  induction p with
  | nil => intro l; simp [listPrefixB]
  | cons a as ih =>
    intro l
    cases l with
    | nil => simp [listPrefixB]
    | cons b bs =>
      simp only [listPrefixB, Bool.and_eq_true, beq_iff_eq, List.cons_append, List.cons.injEq]
      rw [ih bs]
      constructor
      · rintro ⟨rfl, t, ht⟩
        exact ⟨t, rfl, ht⟩
      · rintro ⟨t, hb, ht⟩
        exact ⟨hb.symm, t, ht⟩

theorem rstripL_append_keep (a t : List Char) (h : rstripL t = t) (hne : t ≠ []) :
    rstripL (a ++ t) = a ++ t := by
  have hrev : t.reverse.dropWhile wsB = t.reverse := by
    have := congrArg List.reverse h
    simpa [rstripL] using this
  rcases htr : t.reverse with _ | ⟨c, cs⟩
  · exact absurd (by simpa using congrArg List.reverse htr) hne
  · have hc : wsB c = false := by
      by_contra hcc
      have hct : wsB c = true := by simpa using hcc
      rw [htr] at hrev
      have hlen : (cs.dropWhile wsB).length ≤ cs.length := (List.dropWhile_suffix wsB).length_le
      rw [List.dropWhile_cons, hct] at hrev
      have := congrArg List.length hrev
      simp at this
      omega
    unfold rstripL
    rw [List.reverse_append, htr, List.cons_append, dropWhile_cons_false wsB c (cs ++ a.reverse) hc]
    rw [← List.cons_append, ← htr, List.reverse_append]
    simp

theorem rstripL_stripL (l : List Char) : rstripL (stripL l) = stripL l := by
  unfold stripL
  rw [rstripL_idem]

theorem stripL_https_append (t : List Char) (h : rstripL t = t) :
    stripL ("https://".data ++ t) = "https://".data ++ t := by
  rcases ht : t with _ | ⟨c, cs⟩
  · subst ht; simp; decide
  · subst ht
    have hcons : "https://".data ++ (c :: cs) = 'h' :: ("ttps://".data ++ (c :: cs)) := rfl
    unfold stripL lstripL
    rw [hcons, dropWhile_cons_false wsB 'h' _ (by decide), ← hcons]
    exact rstripL_append_keep _ _ h (by simp)

theorem pyStrip_https_strip (x : String) :
    pyStrip ("https://" ++ pyStrip x) = "https://" ++ pyStrip x := by
  show String.mk _ = _
  rw [String.data_append]
  show String.mk (stripL ("https://".data ++ stripL x.data)) = _
  rw [stripL_https_append _ (rstripL_stripL x.data)]
  rfl

theorem normalize_url_idem (u : String) : normalize_url (normalize_url u) = normalize_url u := by
  unfold normalize_url
  by_cases h : (pyStartsWith (pyStrip u) "http://" || pyStartsWith (pyStrip u) "https://") = true
  · rw [if_pos h, pyStrip_idem, if_pos h]
  · rw [if_neg h, pyStrip_https_strip]
    have h2 : pyStartsWith ("https://" ++ pyStrip u) "https://" = true := by
      unfold pyStartsWith
      rw [String.data_append]
      exact listPrefixB_append_self _ _
    rw [if_pos (by simp [h2])]

theorem pyUrlparse_http (t : String) : (pyUrlparse ("http://" ++ t)).scheme = "http" := by
  obtain ⟨td⟩ := t
  rfl

theorem pyUrlparse_https (t : String) : (pyUrlparse ("https://" ++ t)).scheme = "https" := by
  obtain ⟨td⟩ := t
  rfl

/-- Every output of `normalize_url` parses with scheme `http` or `https`:
the function guarantees one of the two prefixes. -/
theorem normalize_url_scheme (u : String) :
    (pyUrlparse (normalize_url u)).scheme = "http" ∨
      (pyUrlparse (normalize_url u)).scheme = "https" := by
  unfold normalize_url
  by_cases h1 : pyStartsWith (pyStrip u) "http://" = true
  · rw [if_pos (by simp [h1])]
    left
    obtain ⟨td, htd⟩ := (listPrefixB_iff "http://".data (pyStrip u).data).mp h1
    have hs : pyStrip u = "http://" ++ String.mk td := by
      cases hpu : pyStrip u
      rw [hpu] at htd
      rw [show ("http://" ++ String.mk td) = String.mk ("http://".data ++ td) from rfl]
      exact congrArg String.mk htd
    rw [hs]
    exact pyUrlparse_http _
  · by_cases h2 : pyStartsWith (pyStrip u) "https://" = true
    · rw [if_pos (by simp [h2])]
      right
      obtain ⟨td, htd⟩ := (listPrefixB_iff "https://".data (pyStrip u).data).mp h2
      have hs : pyStrip u = "https://" ++ String.mk td := by
        cases hpu : pyStrip u
        rw [hpu] at htd
        rw [show ("https://" ++ String.mk td) = String.mk ("https://".data ++ td) from rfl]
        exact congrArg String.mk htd
      rw [hs]
      exact pyUrlparse_https _
    · rw [if_neg (by simp [h1, h2])]
      right
      exact pyUrlparse_https _

/-- C9: normalization is idempotent: a URL accepted and returned by
`validate_and_normalize` is accepted unchanged when validated again, for any
domain-suffix collaborator `ed`. -/
theorem claim_C9 (ed : String → String) (url v : String)
    (h : validate_and_normalize ed url = (true, v)) :
    validate_and_normalize ed v = (true, v) := by
  simp only [validate_and_normalize] at h ⊢
  by_cases h1 : is_valid_url (normalize_url url) = false
  · rw [if_pos h1] at h
    exact absurd (congrArg Prod.fst h) (by simp)
  · rw [if_neg h1] at h
    by_cases h2 : (pyUrlparse (normalize_url url)).scheme ≠ "http" ∧
        (pyUrlparse (normalize_url url)).scheme ≠ "https"
    · rw [if_pos h2] at h
      exact absurd (congrArg Prod.fst h) (by simp)
    · rw [if_neg h2] at h
      by_cases h3 : ed (normalize_url url) = ""
      · rw [if_pos h3] at h
        exact absurd (congrArg Prod.fst h) (by simp)
      · rw [if_neg h3] at h
        have hv : normalize_url url = v := congrArg Prod.snd h
        subst hv
        rw [normalize_url_idem, if_neg h1, if_neg h2, if_neg h3]

/-- Witness for C9 at the concrete input `"example.com"`, whose normalization
is `"https://example.com"`. -/
theorem claim_C9_witness :
    validate_and_normalize extract_domain_model "https://example.com" =
      (true, "https://example.com") :=
  claim_C9 extract_domain_model "example.com" "https://example.com" (by decide)

/-- C5 (amended): every URL accepted by `validate_and_normalize` has scheme
exactly `http` or `https`; and a rejected URL is never rejected with the
`"URL uses unsafe scheme"` reason, because `normalize_url` prefixes `https://`
onto any input lacking an `http(s)://` prefix, making the unsafe-scheme branch
unreachable — unsafe-scheme inputs fail with `"Invalid URL format"` instead. -/
theorem claim_C5 (ed : String → String) (url : String) (ok : Bool) (res : String)
    (h : validate_and_normalize ed url = (ok, res)) :
    (ok = true → (pyUrlparse res).scheme = "http" ∨ (pyUrlparse res).scheme = "https") ∧
      (ok = false → res ≠ "URL uses unsafe scheme") := by
  simp only [validate_and_normalize] at h
  by_cases h1 : is_valid_url (normalize_url url) = false
  · rw [if_pos h1] at h
    have hok : false = ok := congrArg Prod.fst h
    have hres : "Invalid URL format" = res := congrArg Prod.snd h
    constructor
    · intro ht; rw [← hok] at ht; cases ht
    · intro _; rw [← hres]; decide
  · rw [if_neg h1] at h
    by_cases h2 : (pyUrlparse (normalize_url url)).scheme ≠ "http" ∧
        (pyUrlparse (normalize_url url)).scheme ≠ "https"
    · exfalso
      rcases normalize_url_scheme url with hs | hs
      · exact h2.1 hs
      · exact h2.2 hs
    · rw [if_neg h2] at h
      by_cases h3 : ed (normalize_url url) = ""
      · rw [if_pos h3] at h
        have hok : false = ok := congrArg Prod.fst h
        have hres : "Could not extract domain" = res := congrArg Prod.snd h
        constructor
        · intro ht; rw [← hok] at ht; cases ht
        · intro _; rw [← hres]; decide
      · rw [if_neg h3] at h
        have hok : true = ok := congrArg Prod.fst h
        have hres : normalize_url url = res := congrArg Prod.snd h
        constructor
        · intro _; rw [← hres]; exact normalize_url_scheme url
        · intro hf; rw [← hok] at hf; cases hf

/-- Witness for C5 at the accepted input `"example.com"`. -/
theorem claim_C5_witness :
    (pyUrlparse "https://example.com").scheme = "http" ∨
      (pyUrlparse "https://example.com").scheme = "https" :=
  (claim_C5 extract_domain_model "example.com" true "https://example.com" (by decide)).1 rfl

/-- Counterexample to C5 as stated: the input `"javascript:alert(1)"` (a
`javascript:` scheme) is rejected, but with the `"Invalid URL format"` reason,
not the claimed `"URL uses unsafe scheme"` reason. -/
theorem claim_C5_cex :
    validate_and_normalize extract_domain_model "javascript:alert(1)" =
      (false, "Invalid URL format") ∧
      ("Invalid URL format" : String) ≠ "URL uses unsafe scheme" := by
  exact ⟨by decide, by decide⟩

-- ## Embedding of app/risk_engine.py

/-- One `<input>` descriptor collected by the feature extractor
(html_parser.py lines 43-46). -/
structure FormInput where
  type : String
  name : String
  placeholder : Option String
deriving DecidableEq

/-- One `<form>` record collected by the feature extractor
(html_parser.py lines 49-54). -/
structure Form where
  method : String
  action : String
  inputs : List FormInput
  has_password : Bool
deriving DecidableEq

/-- The `ExtractedFeatures` dictionary returned by `extract_html_features`
(html_parser.py lines 71-81). -/
structure Extracted where
  title : Option String
  meta_description : Option String
  meta_keywords : Option String
  links : List String
  forms : List Form
  scripts : List String
  images : List String
  iframes : List String
  clean_text : String
deriving DecidableEq

/-- One sub-result of the fetch orchestrator (the dictionaries built by
`head_request` / `get_request`, fetcher.py lines 19 and 40-48). -/
structure SubFetch where
  status_code : Option ℕ
  final_url : String
  redirects : List String
  headers : List (String × String)
  content : Option String
  filesize : ℕ
  error : Option String
deriving DecidableEq

/-- The combined dictionary returned by `fetch_url_data` (fetcher.py lines
101-107).  `none` in `head`/`get` models both an absent key and Python
`None` (only the early unsupported-scheme return produces it). -/
structure FetchData where
  url : String
  normalized_url : String
  head : Option SubFetch
  get : Option SubFetch
deriving DecidableEq

/-- The VirusTotal reputation signal consumed by `combine_vt_gsb_score`
(risk_engine.py lines 72-76).  The four count fields model the
`malicious_count`/`malicious`/`suspicious_count`/`suspicious` dict keys
(0 models an absent key, exactly as `dict.get(k, 0)` does); counts of
flagging engines are natural numbers. -/
structure VTSignal where
  malicious_count : ℕ
  suspicious_count : ℕ
  malicious : ℕ
  suspicious : ℕ
deriving DecidableEq

/-- The Google Safe Browsing signal consumed by `combine_vt_gsb_score`
(risk_engine.py lines 77-82): `has_matches` / `has_threats` record whether
the `matches` / `threats` dict keys are present with truthy values
(`matches` is a reserved word in Lean, hence the prefix). -/
structure GSBSignal where
  has_matches : Bool
  has_threats : Bool
deriving DecidableEq

/-- The `components` breakdown of the risk report
(risk_engine.py lines 182-192). -/
structure Components where
  api_penalty : ℚ
  redirect_count : ℕ
  forms_count : ℕ
  ext_script_ratio : ℚ
  iframe_count : ℕ
  ext_link_ratio : ℚ
  kw_matches : ℕ
  filesize : ℕ
  scheme : String
deriving DecidableEq

/-- The dictionary returned by `compute_heuristic_score`
(risk_engine.py lines 179-194). -/
structure RiskReport where
  score : ℚ
  verdict : String
  components : Components
  explanations : List String
deriving DecidableEq

/-- The fixed `SUSPICIOUS_TLDS` set (risk_engine.py line 6); iteration order
is irrelevant because only membership-style `any` is taken. -/
def SUSPICIOUS_TLDS : List String :=
  [".xyz", ".top", ".click", ".ml", ".cf", ".ga", ".bid", ".pw"]

/-- The fixed `SUSPICIOUS_KEYWORDS` list (risk_engine.py lines 7-10). -/
def SUSPICIOUS_KEYWORDS : List String :=
  ["login", "verify", "account", "bank", "secure", "update", "signin", "password",
   "confirm", "ssn", "social", "credential", "change-password", "otp", "one-time"]

/-- Model of `is_ip_host` (risk_engine.py lines 12-15): the anchored regex
`^\d{1,3}(\.\d{1,3}){3}$` holds exactly when the hostname splits on dots into
four nonempty all-digit groups of at most three digits. -/
def is_ip_host (hostname : Option String) : Bool :=
  match hostname with
  | none => false
  | some h =>
    if h = "" then false
    else
      let parts := splitOnDot h.data
      decide (parts.length = 4) &&
        parts.all (fun p => !p.isEmpty && decide (p.length ≤ 3) && p.all asciiDigitB)

/-- Model of `tld_is_suspicious` (risk_engine.py lines 17-24). -/
def tld_is_suspicious (hostname : Option String) : Bool :=
  match hostname with
  | none => false
  | some h =>
    if h = "" || !(pySubstr "." h) then false
    else SUSPICIOUS_TLDS.any (fun tld => pyEndsWith (pyLower h) tld)

/-- Model of `external_script_ratio` (risk_engine.py lines 26-33): the
counting loop is rendered as the length of a filter with the loop's
condition `s and not s.startswith("/") and domain not in (s or "")`. -/
def external_script_ratio (scripts : List String) (domain : String) : ℚ :=
  if scripts = [] then 0
  else
    ((scripts.filter
        (fun s => !(s == "") && !(pyStartsWith s "/") && !(pySubstr domain s))).length : ℚ) /
      (scripts.length : ℚ)

/-- Model of `external_links_ratio` (risk_engine.py lines 35-47): counts
links whose parsed hostname is nonempty and does not contain `domain` as a
substring.  The `try/except` of the source is vacuous in the model because
the `urlparse` model is total. -/
def external_links_ratio (links : List String) (domain : String) : ℚ :=
  if links = [] then 0
  else
    ((links.filter (fun l =>
        let host := ((pyUrlparse l).hostname).getD ""
        !(host == "") && !(pySubstr domain host))).length : ℚ) /
      (links.length : ℚ)

/-- Model of `count_forms` (risk_engine.py lines 49-50). -/
def count_forms (forms : List Form) : ℕ := forms.length

/-- Model of `count_iframes` (risk_engine.py lines 52-53). -/
def count_iframes (iframes : List String) : ℕ := iframes.length

/-- Model of `suspicious_keyword_matches` (risk_engine.py lines 55-63): each
keyword is counted at most once, via substring match in the lower-cased
text. -/
def suspicious_keyword_matches (text : String) : ℕ :=
  if text = "" then 0
  else (SUSPICIOUS_KEYWORDS.filter (fun kw => pySubstr kw (pyLower text))).length

/-- Python `a or b` for the nonnegative integers of the VT signal:
`a` when nonzero, else `b` (risk_engine.py lines 73-74). -/
def pyOrNat (a b : ℕ) : ℕ := if a ≠ 0 then a else b

/-- Model of `combine_vt_gsb_score` (risk_engine.py lines 65-83). -/
def combine_vt_gsb_score (vt : Option VTSignal) (gsb : Option GSBSignal) : ℚ :=
  let s1 : ℚ :=
    match vt with
    | none => 0
    | some v =>
      min 50 ((pyOrNat v.malicious_count v.malicious : ℚ) * 20) +
        min 20 ((pyOrNat v.suspicious_count v.suspicious : ℚ) * 5)
  let s2 : ℚ :=
    match gsb with
    | none => s1
    | some g => if g.has_matches then s1 + 60 else if g.has_threats then s1 + 60 else s1
  min 100 s2

/-- Model of Python `round(x, 1)` (risk_engine.py lines 180, 183).  Mathlib's
`round` breaks ties upward while Python breaks them to even, but every value
this model rounds is proved integer-valued below (`claim_C1` and its
supporting lemmas), where the two agree. -/
def pyRound1 (q : ℚ) : ℚ := ((round (q * 10) : ℤ) : ℚ) / 10

/-- Model of Python `round(x, 2)` (risk_engine.py lines 186, 188); same
tie-mode caveat as `pyRound1`, and every theorem below only ever compares
this function at equal arguments. -/
def pyRound2 (q : ℚ) : ℚ := ((round (q * 100) : ℤ) : ℚ) / 100

/-- Rendering of the `:.0f` format of the api-penalty explanation
(risk_engine.py line 106); the formatted value is integral whenever the
engine produces it. -/
def fmtF0 (q : ℚ) : String := toString (round q)

/-- Rendering of the `:.2f` format of the ratio explanations
(risk_engine.py lines 137, 148). -/
def fmt2 (q : ℚ) : String :=
  let n : ℤ := round (q * 100)
  toString (n / 100) ++ "." ++ (if n % 100 < 10 then "0" ++ toString (n % 100) else toString (n % 100))

/-- The f-string of risk_engine.py line 106. -/
def apiExplanation (p : ℚ) : String :=
  "External threat services flagged: penalty " ++ fmtF0 p

/-- The f-string of risk_engine.py line 113. -/
def redirectExplanation (n : ℕ) : String :=
  "Redirect chain length " ++ toString n ++ " (suspicious)"

/-- The literal of risk_engine.py line 120. -/
def ipExplanation : String := "URL uses numeric IP address (suspicious)"

/-- The f-string of risk_engine.py line 123 (`hostname.split('.')[-1]`). -/
def tldExplanation (hostname : String) : String :=
  "Suspicious TLD (" ++ String.mk ((splitOnDot hostname.data).getLastD []) ++ ")"

/-- The f-string of risk_engine.py line 129. -/
def formsExplanation (n : ℕ) : String :=
  "Found " ++ toString n ++ " form(s) (could request credentials)"

/-- The f-string of risk_engine.py line 137. -/
def scriptRatioExplanation (r : ℚ) : String :=
  "High external script ratio: " ++ fmt2 r

/-- The f-string of risk_engine.py line 141. -/
def iframesExplanation (n : ℕ) : String :=
  "Found " ++ toString n ++ " iframe(s)"

/-- The f-string of risk_engine.py line 148. -/
def linksRatioExplanation (r : ℚ) : String :=
  "High external links ratio: " ++ fmt2 r

/-- The f-string of risk_engine.py line 155. -/
def kwExplanation (n : ℕ) : String :=
  "Suspicious keywords found: " ++ toString n

/-- The literal of risk_engine.py line 160. -/
def httpExplanation : String := "Using HTTP (not HTTPS)"

/-- The literal of risk_engine.py line 166. -/
def smallPageExplanation : String := "Very small page with forms (phishing-like)"

/-- Model of `compute_heuristic_score` (risk_engine.py lines 85-194).

The source threads a running float `score` through a fixed sequence of
conditional `score += w` sites and a running `explanations` list through the
`explanations.append(e)` sites of the same branches; the model renders the
final score as the sum of the conditional contributions and the final list as
the concatenation of the conditional singletons, both in source order, which
is exactly the value the straight-line sequence computes.  Note the
`redirect_count == 2` branch (line 114-115) adds 6 with no append. -/
def compute_heuristic_score (fetch : FetchData) (extracted : Extracted)
    (normalized_url : String) (vt : Option VTSignal) (gsb : Option GSBSignal) : RiskReport :=
  let parsed := pyUrlparse normalized_url
  let hostname := (parsed.hostname).getD ""
  let domain := hostname
  let api_penalty := combine_vt_gsb_score vt gsb
  let redirect_count :=
    max (match fetch.head with | some h => h.redirects.length | none => 0)
      (match fetch.get with | some g => g.redirects.length | none => 0)
  let forms_count := count_forms extracted.forms
  let esr := external_script_ratio extracted.scripts domain
  let iframe_count := count_iframes extracted.iframes
  let elr := external_links_ratio extracted.links domain
  let kw_matches := suspicious_keyword_matches extracted.clean_text
  let filesize := match fetch.get with | some g => g.filesize | none => 0
  let raw_score : ℚ := min 100
    (api_penalty
      + (if redirect_count ≥ 3 then 12 else if redirect_count = 2 then 6 else 0)
      + (if is_ip_host (some hostname) then 15 else 0)
      + (if tld_is_suspicious (some hostname) then 8 else 0)
      + (if forms_count > 0 then min 20 ((forms_count : ℚ) * 6) else 0)
      + (if esr > 0.6 then 10 else 0)
      + (if iframe_count > 0 then min 12 ((iframe_count : ℚ) * 6) else 0)
      + (if elr > 0.6 then 8 else 0)
      + (if kw_matches > 0 then min 15 ((kw_matches : ℚ) * 3) else 0)
      + (if parsed.scheme = "http" then 4 else 0)
      + (if filesize < 200 ∧ forms_count > 0 then 8 else 0))
  { score := pyRound1 raw_score
    verdict :=
      if raw_score ≥ 65 then "DANGEROUS"
      else if raw_score ≥ 30 then "SUSPICIOUS"
      else "SAFE"
    components :=
      { api_penalty := pyRound1 api_penalty
        redirect_count := redirect_count
        forms_count := forms_count
        ext_script_ratio := pyRound2 esr
        iframe_count := iframe_count
        ext_link_ratio := pyRound2 elr
        kw_matches := kw_matches
        filesize := filesize
        scheme := parsed.scheme }
    explanations :=
      (if api_penalty > 0 then [apiExplanation api_penalty] else [])
        ++ (if redirect_count ≥ 3 then [redirectExplanation redirect_count] else [])
        ++ (if is_ip_host (some hostname) then [ipExplanation] else [])
        ++ (if tld_is_suspicious (some hostname) then [tldExplanation hostname] else [])
        ++ (if forms_count > 0 then [formsExplanation forms_count] else [])
        ++ (if esr > 0.6 then [scriptRatioExplanation esr] else [])
        ++ (if iframe_count > 0 then [iframesExplanation iframe_count] else [])
        ++ (if elr > 0.6 then [linksRatioExplanation elr] else [])
        ++ (if kw_matches > 0 then [kwExplanation kw_matches] else [])
        ++ (if parsed.scheme = "http" then [httpExplanation] else [])
        ++ (if filesize < 200 ∧ forms_count > 0 then [smallPageExplanation] else []) }

-- ## Integrality of the score and claim C1

/-- A rational is a natural number cast; every running score of the engine
has this shape, which is what makes Python's `round` a no-op on it. -/
def IsNatQ (q : ℚ) : Prop := ∃ n : ℕ, q = (n : ℚ)

theorem isNatQ_add {a b : ℚ} (ha : IsNatQ a) (hb : IsNatQ b) : IsNatQ (a + b) := by
  obtain ⟨m, hm⟩ := ha
  obtain ⟨n, hn⟩ := hb
  exact ⟨m + n, by rw [hm, hn]; push_cast; ring⟩

theorem isNatQ_ite (c : Prop) [Decidable c] {a b : ℚ} (ha : IsNatQ a) (hb : IsNatQ b) :
    IsNatQ (if c then a else b) := by
  by_cases h : c <;> simp [h, ha, hb]

theorem min100_cast (m : ℕ) : min (100 : ℚ) (m : ℚ) = ((min 100 m : ℕ) : ℚ) := by
  rw [Nat.cast_min]
  norm_num

theorem pyRound1_natCast (n : ℕ) : pyRound1 (n : ℚ) = (n : ℚ) := by
  unfold pyRound1
  have h : ((n : ℚ) * 10) = ((10 * n : ℕ) : ℚ) := by push_cast; ring
  rw [h, round_natCast]
  push_cast
  ring

/-- `combine_vt_gsb_score` always returns a natural number at most 100. -/
theorem combine_isNat (vt : Option VTSignal) (gsb : Option GSBSignal) :
    ∃ n : ℕ, n ≤ 100 ∧ combine_vt_gsb_score vt gsb = (n : ℚ) := by
  have key : ∃ m : ℕ, combine_vt_gsb_score vt gsb = min (100 : ℚ) (m : ℚ) := by
    unfold combine_vt_gsb_score
    cases vt with
    | none =>
      cases gsb with
      | none => exact ⟨0, by norm_num⟩
      | some g =>
        by_cases hm : g.has_matches = true
        · exact ⟨60, by simp [hm]⟩
        · by_cases ht : g.has_threats = true
          · simp only [Bool.not_eq_true] at hm
            exact ⟨60, by simp [hm, ht]⟩
          · simp only [Bool.not_eq_true] at hm ht
            exact ⟨0, by simp [hm, ht]⟩
    | some v =>
      have h1 : min (50 : ℚ) ((pyOrNat v.malicious_count v.malicious : ℚ) * 20) +
            min (20 : ℚ) ((pyOrNat v.suspicious_count v.suspicious : ℚ) * 5) =
          ((min 50 (pyOrNat v.malicious_count v.malicious * 20) +
              min 20 (pyOrNat v.suspicious_count v.suspicious * 5) : ℕ) : ℚ) := by
        push_cast
        ring
      cases gsb with
      | none => exact ⟨_, by simp only []; rw [h1]⟩
      | some g =>
        by_cases hm : g.has_matches = true
        · refine ⟨min 50 (pyOrNat v.malicious_count v.malicious * 20) +
              min 20 (pyOrNat v.suspicious_count v.suspicious * 5) + 60, ?_⟩
          simp only [hm, if_true]
          rw [h1]
          push_cast
          ring_nf
        · by_cases ht : g.has_threats = true
          · simp only [Bool.not_eq_true] at hm
            refine ⟨min 50 (pyOrNat v.malicious_count v.malicious * 20) +
                min 20 (pyOrNat v.suspicious_count v.suspicious * 5) + 60, ?_⟩
            simp only [hm, ht, Bool.false_eq_true, if_false, if_true]
            rw [h1]
            push_cast
            ring_nf
          · simp only [Bool.not_eq_true] at hm ht
            refine ⟨min 50 (pyOrNat v.malicious_count v.malicious * 20) +
                min 20 (pyOrNat v.suspicious_count v.suspicious * 5), ?_⟩
            simp only [hm, ht, Bool.false_eq_true, if_false]
            rw [h1]
  obtain ⟨m, hm⟩ := key
  exact ⟨min 100 m, Nat.min_le_left _ _, by rw [hm, min100_cast]⟩

/-- The sum of the engine's conditional penalty contributions is a natural
number, whatever the trigger conditions and counts. -/
theorem score_sum_isNat (c : ℚ) (hc : IsNatQ c)
    (q1 q2 q3 q4 q5 q6 q7 q8 q9 q10 q11 : Prop)
    [Decidable q1] [Decidable q2] [Decidable q3] [Decidable q4] [Decidable q5]
    [Decidable q6] [Decidable q7] [Decidable q8] [Decidable q9] [Decidable q10]
    [Decidable q11] (fc ic kw : ℕ) :
    IsNatQ (c
      + (if q1 then (12 : ℚ) else if q2 then (6 : ℚ) else 0)
      + (if q3 then (15 : ℚ) else 0)
      + (if q4 then (8 : ℚ) else 0)
      + (if q5 then min 20 ((fc : ℚ) * 6) else 0)
      + (if q6 then (10 : ℚ) else 0)
      + (if q7 then min 12 ((ic : ℚ) * 6) else 0)
      + (if q8 then (8 : ℚ) else 0)
      + (if q9 then min 15 ((kw : ℚ) * 3) else 0)
      + (if q10 then (4 : ℚ) else 0)
      + (if q11 then (8 : ℚ) else 0)) := by
  refine isNatQ_add (isNatQ_add (isNatQ_add (isNatQ_add (isNatQ_add (isNatQ_add
    (isNatQ_add (isNatQ_add (isNatQ_add (isNatQ_add hc ?_) ?_) ?_) ?_) ?_) ?_) ?_) ?_) ?_) ?_
  · exact isNatQ_ite _ ⟨12, by norm_num⟩ (isNatQ_ite _ ⟨6, by norm_num⟩ ⟨0, by norm_num⟩)
  · exact isNatQ_ite _ ⟨15, by norm_num⟩ ⟨0, by norm_num⟩
  · exact isNatQ_ite _ ⟨8, by norm_num⟩ ⟨0, by norm_num⟩
  · exact isNatQ_ite _ ⟨min 20 (fc * 6), by push_cast; ring_nf⟩ ⟨0, by norm_num⟩
  · exact isNatQ_ite _ ⟨10, by norm_num⟩ ⟨0, by norm_num⟩
  · exact isNatQ_ite _ ⟨min 12 (ic * 6), by push_cast; ring_nf⟩ ⟨0, by norm_num⟩
  · exact isNatQ_ite _ ⟨8, by norm_num⟩ ⟨0, by norm_num⟩
  · exact isNatQ_ite _ ⟨min 15 (kw * 3), by push_cast; ring_nf⟩ ⟨0, by norm_num⟩
  · exact isNatQ_ite _ ⟨4, by norm_num⟩ ⟨0, by norm_num⟩
  · exact isNatQ_ite _ ⟨8, by norm_num⟩ ⟨0, by norm_num⟩

/-- For an integer-valued running score, capping at 100 and rounding yields a
value in `[0, 100]`, and the verdict thresholds commute with the rounding. -/
theorem capped_score_props (S : ℚ) (hS : IsNatQ S) :
    0 ≤ pyRound1 (min 100 S) ∧ pyRound1 (min 100 S) ≤ 100 ∧
      (if min (100 : ℚ) S ≥ 65 then "DANGEROUS"
        else if min (100 : ℚ) S ≥ 30 then "SUSPICIOUS" else "SAFE") =
        (if 65 ≤ pyRound1 (min 100 S) then "DANGEROUS"
          else if 30 ≤ pyRound1 (min 100 S) then "SUSPICIOUS" else "SAFE") := by
  obtain ⟨N, hN⟩ := hS
  subst hN
  rw [min100_cast, pyRound1_natCast]
  refine ⟨by positivity, ?_, ?_⟩
  · exact_mod_cast Nat.min_le_left 100 N
  · simp [ge_iff_le]

/-- C1: for every fetch result, extracted features, normalized URL and
optional reputation inputs, the heuristic score lies in `[0, 100]` and the
verdict is the fixed threshold function of the score
(65 → DANGEROUS, 30 → SUSPICIOUS, otherwise SAFE). -/
theorem claim_C1 (fetch : FetchData) (extracted : Extracted) (normalized_url : String)
    (vt : Option VTSignal) (gsb : Option GSBSignal) :
    0 ≤ (compute_heuristic_score fetch extracted normalized_url vt gsb).score ∧
      (compute_heuristic_score fetch extracted normalized_url vt gsb).score ≤ 100 ∧
      (compute_heuristic_score fetch extracted normalized_url vt gsb).verdict =
        (if 65 ≤ (compute_heuristic_score fetch extracted normalized_url vt gsb).score then
          "DANGEROUS"
        else if 30 ≤ (compute_heuristic_score fetch extracted normalized_url vt gsb).score then
          "SUSPICIOUS"
        else "SAFE") := by
  obtain ⟨na, hna100, hna⟩ := combine_isNat vt gsb
  simp only [compute_heuristic_score]
  exact capped_score_props _ (score_sum_isNat _ ⟨na, hna⟩ _ _ _ _ _ _ _ _ _ _ _ _ _ _)

/-- C8: the ratio computations return exactly 0 on an empty list and are
total nonnegative functions — the model's division is only reached with a
nonzero denominator, so the Python division can never be by zero. -/
theorem claim_C8 (d : String) (ss ls : List String) :
    external_script_ratio [] d = 0 ∧ external_links_ratio [] d = 0 ∧
      0 ≤ external_script_ratio ss d ∧ 0 ≤ external_links_ratio ls d := by
  refine ⟨by simp [ external_script_ratio], by simp [ external_links_ratio], ?_, ?_⟩
  · unfold external_script_ratio
    split
    · norm_num
    · positivity
  · unfold external_links_ratio
    split
    · norm_num
    · positivity

/-- C10: the per-form `has_password` flag (and every other per-form field)
never influences the risk report: only the number of forms enters
`compute_heuristic_score`. -/
theorem claim_C10 (fetch : FetchData) (normalized_url : String)
    (vt : Option VTSignal) (gsb : Option GSBSignal) (e : Extracted) (f2 : List Form)
    (h : f2.length = e.forms.length) :
    compute_heuristic_score fetch { e with forms := f2 } normalized_url vt gsb =
      compute_heuristic_score fetch e normalized_url vt gsb := by
  simp only [compute_heuristic_score, count_forms, h]

/-- A fetch record with no body data (sample input for witnesses). -/
def sampleFetch : FetchData :=
  { url := "https://example.com", normalized_url := "https://example.com",
    head := none, get := none }

/-- An extraction record with one credential-free form (sample input). -/
def sampleExtract : Extracted :=
  { title := none, meta_description := none, meta_keywords := none, links := [],
    forms := [{ method := "GET", action := "", inputs := [], has_password := false }],
    scripts := [], images := [], iframes := [], clean_text := "" }

/-- A password form: same form count as `sampleExtract`, different
`has_password` and inputs (sample input). -/
def samplePwForm : Form :=
  { method := "POST", action := "/login",
    inputs := [{ type := "password", name := "pw", placeholder := none }],
    has_password := true }

/-- Witness for C10: swapping the single plain form for a password form of
equal count leaves the whole report unchanged. -/
theorem claim_C10_witness :
    compute_heuristic_score sampleFetch { sampleExtract with forms := [samplePwForm] }
        "https://example.com" none none =
      compute_heuristic_score sampleFetch sampleExtract "https://example.com" none none :=
  claim_C10 sampleFetch "https://example.com" none none sampleExtract [samplePwForm] (by rfl)

-- ## Claim C3: explanations, one per triggered heuristic

/-- The explanations selected by a list of table rows `(trigger, text?)`:
each triggered row contributes its text, in row order. -/
def triggeredExplanations (rows : List (Bool × Option String)) : List String :=
  rows.filterMap (fun r => if r.1 then r.2 else none)

/-- Modelled from the spec's scoring table (§4.4), one row per heuristic in
evaluation order, each row carrying its trigger and its explanation text, as
amended: the redirect-chain-length-2 row (which the engine does penalize, +6)
carries no explanation, matching risk_engine.py lines 114-115 where the
`elif redirect_count == 2` branch has no `explanations.append`. -/
def tableExplanations (fetch : FetchData) (extracted : Extracted)
    (normalized_url : String) (vt : Option VTSignal) (gsb : Option GSBSignal) : List String :=
  let parsed := pyUrlparse normalized_url
  let hostname := (parsed.hostname).getD ""
  let domain := hostname
  let api_penalty := combine_vt_gsb_score vt gsb
  let redirect_count :=
    max (match fetch.head with | some h => h.redirects.length | none => 0)
      (match fetch.get with | some g => g.redirects.length | none => 0)
  let forms_count := count_forms extracted.forms
  let esr := external_script_ratio extracted.scripts domain
  let iframe_count := count_iframes extracted.iframes
  let elr := external_links_ratio extracted.links domain
  let kw_matches := suspicious_keyword_matches extracted.clean_text
  let filesize := match fetch.get with | some g => g.filesize | none => 0
  triggeredExplanations
    [(decide (api_penalty > 0), some (apiExplanation api_penalty)),
     (decide (redirect_count ≥ 3), some (redirectExplanation redirect_count)),
     (decide (redirect_count = 2), none),
     (is_ip_host (some hostname), some ipExplanation),
     (tld_is_suspicious (some hostname), some (tldExplanation hostname)),
     (decide (forms_count > 0), some (formsExplanation forms_count)),
     (decide (esr > 0.6), some (scriptRatioExplanation esr)),
     (decide (iframe_count > 0), some (iframesExplanation iframe_count)),
     (decide (elr > 0.6), some (linksRatioExplanation elr)),
     (decide (kw_matches > 0), some (kwExplanation kw_matches)),
     (decide (parsed.scheme = "http"), some httpExplanation),
     (decide (filesize < 200 ∧ forms_count > 0), some smallPageExplanation)]

theorem triggeredExplanations_nil : triggeredExplanations [] = [] := rfl

theorem triggeredExplanations_cons (b : Bool) (e : Option String)
    (rest : List (Bool × Option String)) :
    triggeredExplanations ((b, e) :: rest) =
      (if b = true then e.toList else []) ++ triggeredExplanations rest := by
  cases b <;> cases e <;> simp [triggeredExplanations, Option.toList]

/-- C3 (amended): the explanation list of every report is exactly the list of
texts of the triggered table rows in evaluation order — one per triggered
heuristic, except that the redirect-length-2 penalty contributes none. -/
theorem claim_C3 (fetch : FetchData) (extracted : Extracted) (normalized_url : String)
    (vt : Option VTSignal) (gsb : Option GSBSignal) :
    (compute_heuristic_score fetch extracted normalized_url vt gsb).explanations =
      tableExplanations fetch extracted normalized_url vt gsb := by
  simp only [compute_heuristic_score, tableExplanations, triggeredExplanations_cons,
    triggeredExplanations_nil, decide_eq_true_eq, Option.toList_some, Option.toList_none,
    ite_self, List.append_nil, List.nil_append, List.append_assoc]

/-- An extraction result with no features at all (sample input). -/
def emptyExtract : Extracted :=
  { title := none, meta_description := none, meta_keywords := none, links := [],
    forms := [], scripts := [], images := [], iframes := [], clean_text := "" }

/-- A fetch result whose GET leg followed exactly two redirects
(sample input). -/
def redirectFetch : FetchData :=
  { url := "https://example.com", normalized_url := "https://example.com",
    head := none,
    get := some { status_code := some 200, final_url := "https://example.com",
                  redirects := ["https://a.example.com", "https://example.com"],
                  headers := [], content := some "", filesize := 500, error := none } }

/-- Counterexample to C3 as stated: with a redirect chain of length exactly
2 and no other signal, the engine adds the +6 redirect penalty (the whole
score is 6) yet appends no explanation — the report's explanation list is
empty although a heuristic penalty triggered. -/
theorem claim_C3_cex :
    (compute_heuristic_score redirectFetch emptyExtract "https://example.com" none none).explanations = [] ∧
      (compute_heuristic_score redirectFetch emptyExtract "https://example.com" none none).components.redirect_count = 2 ∧
      (compute_heuristic_score redirectFetch emptyExtract "https://example.com" none none).score = 6 := by
  have hparse : pyUrlparse "https://example.com" =
      { scheme := "https", netloc := "example.com", hostname := some "example.com" } := by
    decide
  have hip : is_ip_host (some "example.com") = false := by decide
  have htld : tld_is_suspicious (some "example.com") = false := by decide
  have hsch : ¬("https" : String) = "http" := by decide
  refine ⟨?_, ?_, ?_⟩ <;>
    norm_num [compute_heuristic_score, redirectFetch, emptyExtract, hparse, hip, htld, hsch,
      combine_vt_gsb_score, external_script_ratio, external_links_ratio,
      suspicious_keyword_matches, count_forms, count_iframes, pyRound1, round_eq]

-- ## Embedding of app/cache.py

/-- Modelled from the external `hashlib.sha256(url.encode()).hexdigest()`
call (cache.py lines 18 and 27): a deterministic key-derivation; determinism
in the url string is the only property the sources rely on. -/
def fingerprint (url : String) : String := "sha256:" ++ url

/-- The cache TTL (cache.py line 5): 12 hours in seconds. -/
def TTL : ℤ := 60 * 60 * 12

/-- One persisted cache entry `{"ts": ..., "result": ...}`
(cache.py line 28). -/
structure CacheEntry (α : Type) where
  ts : ℤ
  result : α
deriving DecidableEq

/-- Keyed lookup in the persisted store (the JSON dict `d.get(key)`,
cache.py line 19). -/
def storeLookup {α : Type} : List (String × CacheEntry α) → String → Option (CacheEntry α)
  | [], _ => none
  | (k, e) :: rest, key => if k = key then some e else storeLookup rest key

/-- Keyed update `d[key] = entry` of the persisted store (cache.py line 28):
replaces the binding in place, or appends a new one. -/
def storeInsert {α : Type} :
    List (String × CacheEntry α) → String → CacheEntry α → List (String × CacheEntry α)
  | [], key, e => [(key, e)]
  | (k, e0) :: rest, key, e =>
    if k = key then (k, e) :: rest else (k, e0) :: storeInsert rest key e

/-- Keyed removal `d.pop(key, None)` from the persisted store
(cache.py line 22). -/
def storeErase {α : Type} :
    List (String × CacheEntry α) → String → List (String × CacheEntry α)
  | [], _ => []
  | (k, e) :: rest, key => if k = key then rest else (k, e) :: storeErase rest key

/-- Model of `cache_get` (cache.py lines 16-23).  The wall clock
(`time.time()`) is an explicit `now` argument and the persisted file is the
explicit store; the returned store is the persisted state after the call —
it is rewritten (`_save`) exactly on the eviction path. -/
def cache_get {α : Type} (now : ℤ) (url : String) (store : List (String × CacheEntry α)) :
    Option α × List (String × CacheEntry α) :=
  match storeLookup store (fingerprint url) with
  | none => (none, store)
  | some item =>
    if now - item.ts > TTL then (none, storeErase store (fingerprint url))
    else (some item.result, store)

/-- Model of `cache_set` (cache.py lines 25-29). -/
def cache_set {α : Type} (now : ℤ) (url : String) (result : α)
    (store : List (String × CacheEntry α)) : List (String × CacheEntry α) :=
  storeInsert store (fingerprint url) ⟨now, result⟩

theorem storeLookup_insert {α : Type} (s : List (String × CacheEntry α)) (k : String)
    (e : CacheEntry α) : storeLookup (storeInsert s k e) k = some e := by
  induction s with
  | nil => simp [storeInsert, storeLookup]
  | cons p rest ih =>
    obtain ⟨k0, e0⟩ := p
    by_cases h : k0 = k
    · simp [storeInsert, storeLookup, h]
    · simp [storeInsert, storeLookup, h, ih]

/-- C6: immediately after `cache_set url R`, `cache_get url` returns `R`;
and once `now - createdAt` exceeds the TTL, `cache_get url` returns absent
and the persisted store has the entry deleted. -/
theorem claim_C6 {α : Type} (t now : ℤ) (url : String) (r : α)
    (store : List (String × CacheEntry α)) (h : now - t > TTL) :
    (cache_get t url (cache_set t url r store)).1 = some r ∧
      cache_get now url (cache_set t url r store) =
        (none, storeErase (cache_set t url r store) (fingerprint url)) := by
  have hl := storeLookup_insert store (fingerprint url) (CacheEntry.mk t r)
  constructor
  · simp only [cache_get, cache_set, hl]
    norm_num [TTL]
  · simp only [cache_get, cache_set, hl]
    rw [if_pos (by simpa using h)]

/-- Witness for C6 with a 7-valued payload, a 12-hour TTL boundary crossed by
one second. -/
theorem claim_C6_witness :
    (cache_get 0 "https://example.com"
        (cache_set 0 "https://example.com" (7 : ℕ) [])).1 = some 7 ∧
      cache_get 43201 "https://example.com" (cache_set 0 "https://example.com" (7 : ℕ) []) =
        (none, storeErase (cache_set 0 "https://example.com" (7 : ℕ) [])
          (fingerprint "https://example.com")) :=
  claim_C6 0 43201 "https://example.com" 7 [] (by norm_num [TTL])

-- ## Embedding of app/fetcher.py (the GET leg)

/-- The configured body cap `MAX_CONTENT_BYTES` (fetcher.py line 10). -/
def MAX_CONTENT_BYTES : ℕ := 1000000

/-- One transport response as `httpx` delivers it to `get_request` (external
collaborator): status, final URL, redirect history, headers, raw body bytes
(`resp.content`), and the transport-decoded full text (`resp.text`, decoded
with the transport's detected encoding). -/
structure HttpResponse where
  status_code : ℕ
  url : String
  history : List String
  headers : List (String × String)
  content : List ℕ
  text : String
deriving DecidableEq

/-- UTF-8 continuation byte test. -/
def isCont (b : ℕ) : Bool := 128 ≤ b && b ≤ 191

/-- Valid second byte of a three-byte UTF-8 sequence with lead `b`
(excludes overlong encodings and surrogates, as CPython does). -/
def cont3ok (b c : ℕ) : Bool :=
  if b = 224 then 160 ≤ c && c ≤ 191
  else if b = 237 then 128 ≤ c && c ≤ 159
  else isCont c

/-- Valid second byte of a four-byte UTF-8 sequence with lead `b`. -/
def cont4ok (b c : ℕ) : Bool :=
  if b = 240 then 144 ≤ c && c ≤ 191
  else if b = 244 then 128 ≤ c && c ≤ 143
  else isCont c

/-- What the error handler emits for one ill-formed maximal subpart:
`errors="replace"` emits U+FFFD, `errors="ignore"` emits nothing. -/
def replChar (rep : Bool) : List Char := if rep then [Char.ofNat 0xFFFD] else []

/-- One step of the CPython UTF-8 decoder (external collaborator) at lead
byte `b` with following bytes `rest`: the characters emitted (a decoded
character, or `replChar` for an ill-formed maximal subpart) and how many
bytes of `rest` the step consumed beyond the lead. -/
def utf8Step (rep : Bool) (b : ℕ) (rest : List ℕ) : List Char × ℕ :=
  if b < 128 then ([Char.ofNat b], 0)
  else if 194 ≤ b && b ≤ 223 then
    match rest with
    | c :: _ =>
      if isCont c then ([Char.ofNat ((b - 192) * 64 + (c - 128))], 1)
      else (replChar rep, 0)
    | [] => (replChar rep, 0)
  else if 224 ≤ b && b ≤ 239 then
    match rest with
    | c :: d :: _ =>
      if cont3ok b c then
        if isCont d then ([Char.ofNat ((b - 224) * 4096 + (c - 128) * 64 + (d - 128))], 2)
        else (replChar rep, 1)
      else (replChar rep, 0)
    | [c] => if cont3ok b c then (replChar rep, 1) else (replChar rep, 0)
    | [] => (replChar rep, 0)
  else if 240 ≤ b && b ≤ 244 then
    match rest with
    | c :: d :: e :: _ =>
      if cont4ok b c then
        if isCont d then
          if isCont e then
            ([Char.ofNat ((b - 240) * 262144 + (c - 128) * 4096 + (d - 128) * 64 + (e - 128))], 3)
          else (replChar rep, 2)
        else (replChar rep, 1)
      else (replChar rep, 0)
    | [c, d] =>
      if cont4ok b c then
        if isCont d then (replChar rep, 2) else (replChar rep, 1)
      else (replChar rep, 0)
    | [c] => if cont4ok b c then (replChar rep, 1) else (replChar rep, 0)
    | [] => (replChar rep, 0)
  else (replChar rep, 0)

/-- Model of the CPython UTF-8 decoder (external collaborator) under the
`ignore` (`rep = false`) and `replace` (`rep = true`) error handlers: each
maximal ill-formed subpart contributes `replChar` and decoding resumes at
the following byte. -/
def utf8DecodeChars (rep : Bool) : List ℕ → List Char
  | [] => []
  | b :: rest =>
    (utf8Step rep b rest).1 ++ utf8DecodeChars rep (rest.drop (utf8Step rep b rest).2)
termination_by l => l.length
decreasing_by simp [List.length_drop]; omega

/-- Python `bytes.decode(errors="ignore")` (fetcher.py line 61). -/
def pyDecodeIgnore (bs : List ℕ) : String := ⟨utf8DecodeChars false bs⟩

/-- Python `bytes.decode(errors="replace")` — the behaviour the spec claims
for truncated bodies; used only to compare against the source's
`errors="ignore"`. -/
def pyDecodeReplace (bs : List ℕ) : String := ⟨utf8DecodeChars true bs⟩

/-- Model of `get_request` (fetcher.py lines 35-69), given the transport's
response (`none` models a transport error caught by the `except` arms,
lines 65-68). -/
def get_request (url : String) (resp : Option HttpResponse) (max_bytes : ℕ) : SubFetch :=
  match resp with
  | none =>
    { status_code := none, final_url := url, redirects := [], headers := [],
      content := none, filesize := 0, error := some "get_request_error" }
  | some r =>
    { status_code := some r.status_code
      final_url := r.url
      redirects := r.history
      headers := r.headers
      content := some (if r.content.length > max_bytes
          then pyDecodeIgnore (r.content.take max_bytes)
          else r.text)
      filesize := r.content.length
      error := none }

theorem utf8Step_ff (rep : Bool) (l : List ℕ) : utf8Step rep 255 l = (replChar rep, 0) := by
  simp [utf8Step]

theorem utf8_ignore_ff (n : ℕ) : utf8DecodeChars false (List.replicate n 255) = [] := by
  induction n with
  | zero => simp [utf8DecodeChars]
  | succ k ih =>
    rw [List.replicate_succ]
    simp [utf8DecodeChars, utf8Step_ff, replChar, ih]

theorem utf8_replace_ff (n : ℕ) :
    utf8DecodeChars true (List.replicate n 255) = List.replicate n (Char.ofNat 0xFFFD) := by
  induction n with
  | zero => simp [utf8DecodeChars]
  | succ k ih =>
    rw [List.replicate_succ, List.replicate_succ]
    simp [utf8DecodeChars, utf8Step_ff, replChar, ih]

/-- C4 (amended): `get_request` reports the original pre-truncation byte
length as `filesize`; a body at or under the cap is decoded in full via the
transport's text; a body over the cap is truncated to the cap's byte prefix
and decoded with invalid byte sequences dropped (`errors="ignore"`), not
replaced. -/
theorem claim_C4 (url : String) (r : HttpResponse) (max_bytes : ℕ) :
    (get_request url (some r) max_bytes).filesize = r.content.length ∧
      (r.content.length ≤ max_bytes →
        (get_request url (some r) max_bytes).content = some r.text) ∧
      (max_bytes < r.content.length →
        (get_request url (some r) max_bytes).content =
          some (pyDecodeIgnore (r.content.take max_bytes))) := by
  refine ⟨rfl, ?_, ?_⟩
  · intro h
    show some (if r.content.length > max_bytes then _ else _) = _
    rw [if_neg (by omega)]
  · intro h
    show some (if r.content.length > max_bytes then _ else _) = _
    rw [if_pos h]

/-- A two-byte ASCII body, fitting the cap (sample input). -/
def smallResp : HttpResponse :=
  { status_code := 200, url := "https://example.com/p", history := [], headers := [],
    content := [104, 105], text := "hi" }

/-- Witness for C4: an in-cap body is decoded in full and its length
reported. -/
theorem claim_C4_witness :
    (get_request "https://example.com/p" (some smallResp) MAX_CONTENT_BYTES).content = some "hi" ∧
      (get_request "https://example.com/p" (some smallResp) MAX_CONTENT_BYTES).filesize = 2 :=
  ⟨(claim_C4 "https://example.com/p" smallResp MAX_CONTENT_BYTES).2.1
      (by norm_num [smallResp, MAX_CONTENT_BYTES]),
    (claim_C4 "https://example.com/p" smallResp MAX_CONTENT_BYTES).1.trans
      (by norm_num [smallResp])⟩

/-- A body of 1,000,001 `0xFF` bytes — one over the default cap, every byte
an invalid UTF-8 sequence (sample input). -/
def hugeResp : HttpResponse :=
  { status_code := 200, url := "https://big.example.com/blob", history := [], headers := [],
    content := List.replicate 1000001 255, text := "" }

/-- Counterexample to C4 as stated: for a 1,000,001-byte all-`0xFF` body the
code reports the original length but decodes the truncated prefix with
invalid bytes dropped (result `""`), not replaced — the claimed
replacement decoding would give 1,000,000 U+FFFD characters. -/
theorem claim_C4_cex :
    (get_request "https://big.example.com/blob" (some hugeResp) MAX_CONTENT_BYTES).filesize = 1000001 ∧
      (get_request "https://big.example.com/blob" (some hugeResp) MAX_CONTENT_BYTES).content = some "" ∧
      (get_request "https://big.example.com/blob" (some hugeResp) MAX_CONTENT_BYTES).content ≠
        some (pyDecodeReplace (hugeResp.content.take MAX_CONTENT_BYTES)) := by
  have hc : hugeResp.content = List.replicate 1000001 (255 : ℕ) := rfl
  have hm : MAX_CONTENT_BYTES = 1000000 := rfl
  have hlen : hugeResp.content.length = 1000001 := by
    rw [hc, List.length_replicate]
  have htake : hugeResp.content.take MAX_CONTENT_BYTES = List.replicate 1000000 255 := by
    rw [hc, hm, List.take_replicate]
    norm_num
  have hgt : hugeResp.content.length > MAX_CONTENT_BYTES := by
    rw [hlen, hm]
    norm_num
  have hcontent :
      (get_request "https://big.example.com/blob" (some hugeResp) MAX_CONTENT_BYTES).content =
        some (pyDecodeIgnore (List.replicate 1000000 255)) := by
    show some (if hugeResp.content.length > MAX_CONTENT_BYTES then _ else _) = _
    rw [if_pos hgt, htake]
  have hig : pyDecodeIgnore (List.replicate 1000000 255) = "" := by
    show String.mk (utf8DecodeChars false (List.replicate 1000000 255)) = ""
    rw [utf8_ignore_ff]
  have hrep : pyDecodeReplace (List.replicate 1000000 255) =
      String.mk (List.replicate 1000000 (Char.ofNat 0xFFFD)) := by
    show String.mk (utf8DecodeChars true (List.replicate 1000000 255)) = _
    rw [utf8_replace_ff]
  refine ⟨hlen, by rw [hcontent, hig], ?_⟩
  rw [hcontent, hig, htake, hrep]
  intro hEq
  have hdata : ([] : List Char) = List.replicate 1000000 (Char.ofNat 0xFFFD) :=
    congrArg String.data (Option.some_injective _ hEq)
  have hlen2 := congrArg List.length hdata
  rw [List.length_nil, List.length_replicate] at hlen2
  exact absurd hlen2 (by norm_num)

-- ## Embedding of app/html_parser.py (meta description / keywords)

/-- One `<meta>` node as the DOM collaborator presents it: its `name` and
`content` attributes (`none` models an absent attribute). -/
structure MetaTag where
  name : Option String
  content : Option String
deriving DecidableEq

/-- One iteration of the meta loop (html_parser.py lines 28-32): a tag whose
`name` equals `"description"` overwrites the description slot with its
`content` attribute (possibly `None`); otherwise (`elif`) one whose `name`
equals `"keywords"` overwrites the keywords slot.  There is no `break`. -/
def metaStep (acc : Option String × Option String) (t : MetaTag) :
    Option String × Option String :=
  if t.name = some "description" then (t.content, acc.2)
  else if t.name = some "keywords" then (acc.1, t.content)
  else acc

/-- Model of the meta-description/meta-keywords part of
`extract_html_features` (html_parser.py lines 26-32), over the document-order
list of meta tags delivered by the external `bs4` DOM collaborator.  Returns
`(meta_description, meta_keywords)`. -/
def extract_meta (metas : List MetaTag) : Option String × Option String :=
  metas.foldl metaStep (none, none)

/-- C7 (amended): the reported meta description (resp. keywords) is the
`content` attribute of the LAST meta tag in document order whose `name`
attribute equals `"description"` (resp. `"keywords"`), case-sensitively —
the loop has no `break`, so later matches overwrite earlier ones. -/
theorem claim_C7 (metas : List MetaTag) :
    (extract_meta metas).1 =
        Option.bind ((metas.filter (fun t => decide (t.name = some "description"))).getLast?)
          MetaTag.content ∧
      (extract_meta metas).2 =
        Option.bind ((metas.filter (fun t => decide (t.name = some "keywords"))).getLast?)
          MetaTag.content := by
  induction metas using List.reverseRecOn with
  | nil => simp [extract_meta]
  | append_singleton ms t ih =>
    obtain ⟨ih1, ih2⟩ := ih
    have hstep : extract_meta (ms ++ [t]) = metaStep (extract_meta ms) t := by
      simp [extract_meta, List.foldl_append]
    by_cases hd : t.name = some "description"
    · have hnk : ¬t.name = some "keywords" := by rw [hd]; decide
      constructor
      · rw [hstep]
        simp [metaStep, hd, List.filter_append]
      · rw [hstep]
        simp [metaStep, hd, hnk, List.filter_append, ih2]
    · by_cases hk : t.name = some "keywords"
      · constructor
        · rw [hstep]
          simp [metaStep, hd, hk, List.filter_append, ih1]
        · rw [hstep]
          simp [metaStep, hd, hk, List.filter_append]
      · constructor
        · rw [hstep]
          simp [metaStep, hd, hk, List.filter_append, ih1]
        · rw [hstep]
          simp [metaStep, hd, hk, List.filter_append, ih2]

/-- A first description meta tag with content `A` (sample input). -/
def metaA : MetaTag := { name := some "description", content := some "A" }

/-- A second description meta tag with content `B` (sample input). -/
def metaB : MetaTag := { name := some "description", content := some "B" }

/-- Counterexample to C7 as stated: with two `name="description"` meta tags
(contents `A` then `B` in document order) the code reports the LAST one
(`B`), not the first (`A`) as claimed. -/
theorem claim_C7_cex :
    (extract_meta [metaA, metaB]).1 = some "B" ∧
      ¬((extract_meta [metaA, metaB]).1 = some "A") := by
  constructor <;> decide

-- ## Embedding of the /scan endpoint (app/main.py)

/-- The summary dictionary returned by `/scan` on success
(main.py lines 147-156). -/
structure ScanSummary where
  status : String
  url : String
  verdict : String
  score : ℚ
  title : Option String
  final_url : Option String
  filesize : Option ℕ
  explanations : List String
deriving DecidableEq

/-- The `/scan` response: the invalid-URL early return (main.py line 125) or
the success summary. -/
inductive ScanResult where
  | invalid_url (reason : String)
  | ok (summary : ScanSummary)
deriving DecidableEq

/-- The state a scan runs against: the persisted cache store
(`cache/scans.json`), the wall clock, a count of network fetches performed
(observable effect of `fetch_url_data`), and the two external collaborators —
the transport side of `fetch_url_data` and the composition of the `bs4` DOM
parse with `extract_html_features`. -/
structure World where
  store : List (String × CacheEntry ScanSummary)
  now : ℤ
  fetchCount : ℕ
  net : String → FetchData
  extractor : String → Extracted

/-- Model of the `/scan` endpoint (main.py lines 120-158).  Each network
fetch consults the transport oracle and increments `fetchCount`; the
persisted cache store is part of the world, so any `cache_get`/`cache_set`
call the endpoint made would show in the returned world.  The source makes
none: the cache helpers (main.py lines 172-185 and cache.py) are never
invoked from `scan`, so the store passes through untouched. -/
def scan (w : World) (url : String) : ScanResult × World :=
  match validate_and_normalize extract_domain_model url with
  | (false, reason) => (ScanResult.invalid_url reason, w)
  | (true, normalized) =>
    let fetch_data := w.net normalized
    let w1 : World := { w with fetchCount := w.fetchCount + 1 }
    let geterr : Bool := match fetch_data.get with
      | some g => g.error.isSome
      | none => false
    let html : String := match fetch_data.get with
      | some g => (g.content).getD ""
      | none => ""
    let extracted := if geterr then emptyExtract else w.extractor html
    let risk := compute_heuristic_score fetch_data extracted normalized none none
    (ScanResult.ok
      { status := "ok"
        url := normalized
        verdict := risk.verdict
        score := risk.score
        title := extracted.title
        final_url := match fetch_data.get with | some g => some g.final_url | none => none
        filesize := match fetch_data.get with | some g => some g.filesize | none => none
        explanations := risk.explanations.take 3 }, w1)

/-- C2 (amended): `scan` never consults or updates the cache — the persisted
store passes through every scan unchanged — and every scan of a valid URL
performs a fresh fetch (the fetch count grows by one; by zero only on the
invalid-URL early return). -/
theorem claim_C2 (w : World) (url : String) :
    (scan w url).2.store = w.store ∧
      (scan w url).2.fetchCount = w.fetchCount +
        (if (validate_and_normalize extract_domain_model url).1 = true then 1 else 0) := by
  rcases h : validate_and_normalize extract_domain_model url with ⟨ok, res⟩
  cases ok
  · simp [scan, h]
  · simp [scan, h]

/-- The transport oracle of the counterexample: every URL yields a clean
300-byte empty-content 200 response with no redirects. -/
def oracleNet : String → FetchData := fun u =>
  { url := u, normalized_url := u, head := none,
    get := some { status_code := some 200, final_url := u, redirects := [], headers := [],
                  content := some "", filesize := 300, error := none } }

/-- A previously stored scan result for `https://example.com` with verdict
DANGEROUS (sample cache payload). -/
def storedSummary : ScanSummary :=
  { status := "ok", url := "https://example.com", verdict := "DANGEROUS", score := 99,
    title := none, final_url := some "https://example.com", filesize := some 300,
    explanations := [] }

/-- A world whose cache already holds a fresh (10 seconds old) entry for
`https://example.com` with the DANGEROUS stored result. -/
def cexWorld : World :=
  { store := [(fingerprint "https://example.com", CacheEntry.mk 0 storedSummary)],
    now := 10, fetchCount := 0, net := oracleNet, extractor := fun _ => emptyExtract }

/-- Counterexample to C2 as stated: although the cache holds a fresh
within-TTL entry for the URL (a `cache_get` at the scan's clock would return
the stored DANGEROUS result), `scan` fetches anyway (fetch count 1, then 2 on
the repeated scan), recomputes a SAFE summary instead of returning the stored
one, and never writes the store. -/
theorem claim_C2_cex :
    (cache_get cexWorld.now "https://example.com" cexWorld.store).1 = some storedSummary ∧
      (scan cexWorld "https://example.com").2.store = cexWorld.store ∧
      (scan cexWorld "https://example.com").2.fetchCount = 1 ∧
      (scan (scan cexWorld "https://example.com").2 "https://example.com").2.fetchCount = 2 ∧
      (scan cexWorld "https://example.com").1 = ScanResult.ok
        { status := "ok", url := "https://example.com", verdict := "SAFE", score := 0,
          title := none, final_url := some "https://example.com", filesize := some 300,
          explanations := [] } := by
  have hval : validate_and_normalize extract_domain_model "https://example.com" =
      (true, "https://example.com") := by decide
  have hparse : pyUrlparse "https://example.com" =
      { scheme := "https", netloc := "example.com", hostname := some "example.com" } := by
    decide
  have hip : is_ip_host (some "example.com") = false := by decide
  have htld : tld_is_suspicious (some "example.com") = false := by decide
  have hsch : ¬("https" : String) = "http" := by decide
  have hrisk : compute_heuristic_score (oracleNet "https://example.com") emptyExtract
      "https://example.com" none none =
      { score := 0, verdict := "SAFE",
        components := { api_penalty := 0, redirect_count := 0, forms_count := 0,
                        ext_script_ratio := 0, iframe_count := 0, ext_link_ratio := 0,
                        kw_matches := 0, filesize := 300, scheme := "https" },
        explanations := [] } := by
    norm_num [compute_heuristic_score, oracleNet, emptyExtract, hparse, hip, htld, hsch,
      combine_vt_gsb_score, external_script_ratio, external_links_ratio,
      suspicious_keyword_matches, count_forms, count_iframes, pyRound1, pyRound2, round_eq]
  have hget : (oracleNet "https://example.com").get =
      some { status_code := some 200, final_url := "https://example.com", redirects := [],
             headers := [], content := some "", filesize := 300, error := none } := rfl
  refine ⟨by decide, ?_, ?_, ?_, ?_⟩
  · simp [scan, hval, cexWorld]
  · simp [scan, hval, cexWorld]
  · simp [scan, hval, cexWorld]
  · simp [scan, hval, cexWorld, hget, hrisk]
    rfl
